import Mathlib

/-!
Verification of the classification core of `gmail_ollama_filter` (src/main.py)
against its natural-language specification.

The Python source is shallowly embedded: dictionaries become structures,
external collaborators (Gmail API, Ollama client) become oracle functions
passed as parameters, a caught exception becomes an `Option`/`Except` value,
and `exit(1)` / an uncaught exception becomes the `none` / `.error` branch of
the result type.  Python strings are Lean `String`s manipulated through
`List Char`; the handful of Python string primitives the script uses
(`str.strip`, `str.upper`, `str.lower`, `str.split`, slicing, `str.format`)
and the two `re` patterns are given explicit executable models below, each
annotated with the Python behaviour it mirrors (ASCII view of `\w` and of
whitespace, which covers every string the script compares against).
-/

namespace GmailFilter

/-! ### Python string primitives -/

/-- Whitespace characters recognised by Python's `str.split()` / `str.strip()`
(ASCII view). -/
def pyIsSpace (c : Char) : Bool :=
  c = ' ' || c = '\t' || c = '\n' || c = '\r' || c = '\x0b' || c = '\x0c'

/-- `str.upper` on one character (ASCII view). -/
def pyUpperChar (c : Char) : Char :=
  if 'a' ≤ c && c ≤ 'z' then Char.ofNat (c.toNat - 32) else c

/-- `str.lower` on one character (ASCII view). -/
def pyLowerChar (c : Char) : Char :=
  if 'A' ≤ c && c ≤ 'Z' then Char.ofNat (c.toNat + 32) else c

/-- `str.upper` (ASCII view). -/
def pyUpper (s : String) : String := ⟨s.data.map pyUpperChar⟩

/-- `str.lower` (ASCII view). -/
def pyLower (s : String) : String := ⟨s.data.map pyLowerChar⟩

/-- `str.strip()` with no argument: drop leading and trailing whitespace. -/
def pyStripChars (l : List Char) : List Char :=
  ((l.dropWhile pyIsSpace).reverse.dropWhile pyIsSpace).reverse

/-- `str.strip()` on a `String`. -/
def pyStrip (s : String) : String := ⟨pyStripChars s.data⟩

/-- Worker for `str.split()`: split on whitespace runs, discarding empties.
`acc` holds the current word, reversed. -/
def splitWsAux : List Char → List Char → List (List Char)
  | acc, [] => if acc.isEmpty then [] else [acc.reverse]
  | acc, c :: cs =>
    if pyIsSpace c then
      if acc.isEmpty then splitWsAux [] cs else acc.reverse :: splitWsAux [] cs
    else splitWsAux (c :: acc) cs

/-- `str.split()` with no argument. -/
def pySplitWs (s : String) : List String := (splitWsAux [] s.data).map List.asString

/-- `' '.join(s.split())`: collapse every whitespace run to a single space
and drop leading/trailing whitespace (line 141 of the source). -/
def collapseWs (s : String) : String :=
  ⟨List.intercalate [' '] (splitWsAux [] s.data)⟩

/-- `"\n".join(l)`. -/
def joinNL (l : List String) : String := String.intercalate "\n" l

/-- Python slicing `s[:n]` (by characters). -/
def strTake (s : String) (n : Nat) : String := ⟨s.data.take n⟩

/-! ### The regex `\bTOK\b` (word-boundary token search, `re.search`)

The tokens searched for in the source (`YES`, `NO`) consist solely of word
characters, so `\bTOK\b` holds at a position iff the character before the
occurrence (if any) and the character after it (if any) are non-word
characters.  `\w` is modelled in its ASCII reading. -/

/-- Python regex word character `\w` (ASCII view). -/
def isWordChar (c : Char) : Bool := c.isAlphanum || c = '_'

/-- If `s` starts with `tok`, return the remainder. -/
def startsToken : List Char → List Char → Option (List Char)
  | [], s => some s
  | _ :: _, [] => none
  | t :: ts, c :: cs => if c = t then startsToken ts cs else none

/-- `tok` occurs at the head of `s` with a word boundary after it. -/
def tokenHere (tok s : List Char) : Bool :=
  match startsToken tok s with
  | some [] => true
  | some (c :: _) => !isWordChar c
  | none => false

/-- Scan for `tok` with word boundaries; `prev` is the character before the
current position (none at the start of the string). -/
def hasTokenAux (tok : List Char) : Option Char → List Char → Bool
  | _, [] => false
  | prev, c :: cs =>
    ((match prev with | none => true | some p => !isWordChar p) &&
      tokenHere tok (c :: cs)) ||
    hasTokenAux tok (some c) cs

/-- `re.search(r'\bTOK\b', s) is not None` for an all-word-character token. -/
def containsWordToken (tok s : String) : Bool := hasTokenAux tok.data none s.data

/-! ### Decision Interpreter (lines 305–324 of the source)

`raw` is the model's message content; the source first strips it
(`raw_answer = response['message']['content'].strip()`), then uppercases
(`processed_answer = raw_answer.upper()`), then applies the exact-match and
regex-fallback tiers, defaulting to `False`. -/

def ollama_interpret (raw : String) : Bool :=
  let processed := pyUpper (pyStrip raw)
  if processed = "YES" then true
  else if processed = "NO" then false
  else if containsWordToken "YES" processed && !containsWordToken "NO" processed then true
  else if containsWordToken "NO" processed && !containsWordToken "YES" processed then false
  else false

/-- The Decision Interpreter as the specification words it (§4.4): three
tiers, first matching rule wins, every ambiguous shape is no-match. -/
def decisionInterpreterSpec (raw : String) : Bool :=
  let p := pyUpper (pyStrip raw)
  if p = "YES" then true
  else if p = "NO" then false
  else
    let y := containsWordToken "YES" p
    let n := containsWordToken "NO" p
    if y && !n then true
    else if n && !y then false
    else false

/-! ### The regexes `<style[^<]*?</style>`, `<script[^<]*?</script>` and
`<[^<]+?>` under `re.sub(..., ' ', ...)` (lines 122–124)

`re.sub` scans left to right; at each position it tries the pattern
(literal prefix case-insensitively, then a lazy run of non-`<` characters,
then the closing literal / `>`), replaces a match with one space and resumes
after it, otherwise advances one character. -/

/-- Consume `pat` case-insensitively from the front of `l`, returning the
remainder.  A successful match consumes exactly `pat.length` characters. -/
def dropCaseless : (pat l : List Char) → Option (List Char)
  | [], l => some l
  | _ :: _, [] => none
  | p :: ps, c :: cs => if pyLowerChar c = pyLowerChar p then dropCaseless ps cs else none

/-- Search for `[^<]*?CLOSE`: advance over non-`<` characters until the
closing literal matches (case-insensitively); a bare `<` aborts the match.
Returns the remainder after the closing literal. -/
def findClose (close : List Char) : List Char → Option (List Char)
  | [] => none
  | c :: cs =>
    match dropCaseless close (c :: cs) with
    | some r => some r
    | none => if c = '<' then none else findClose close cs

/-- After a `<`: the lazy match of `[^<]+?>` — at least one non-`<`
character, then the first `>`; a premature `<` aborts.  Returns the
remainder after the `>`. -/
def findTagEnd (l : List Char) : Option (List Char) :=
  match l with
  | [] => none
  | c0 :: rest => if c0 = '<' then none else goTagEnd rest
where
  goTagEnd : List Char → Option (List Char)
    | [] => none
    | c :: cs => if c = '>' then some cs else if c = '<' then none else goTagEnd cs

/-- `re.sub('<OPEN[^<]*?</CLOSE>', ' ', s, IGNORECASE|DOTALL)` where the
opening literal is `'<' :: os`, driven by fuel.  Every step consumes at
least one character, so fuel `= l.length` (as supplied by `stripDelim`)
never runs out; the fuel-exhausted branch is unreachable. -/
def stripDelimFuel (os closePat : List Char) : Nat → List Char → List Char
  | _, [] => []
  | 0, l => l
  | fuel + 1, c :: cs =>
    match dropCaseless ('<' :: os) (c :: cs) with
    | some afterOpen =>
      match findClose closePat afterOpen with
      | some rest => ' ' :: stripDelimFuel os closePat fuel rest
      | none => c :: stripDelimFuel os closePat fuel cs
    | none => c :: stripDelimFuel os closePat fuel cs

def stripDelim (os closePat l : List Char) : List Char :=
  stripDelimFuel os closePat l.length l

/-- `re.sub('<[^<]+?>', ' ', s)`: replace every leftmost-shortest tag-shaped
substring by a space; fuel as in `stripDelimFuel`. -/
def stripTagsFuel : Nat → List Char → List Char
  | _, [] => []
  | 0, l => l
  | fuel + 1, c :: cs =>
    if c = '<' then
      match findTagEnd cs with
      | some rest => ' ' :: stripTagsFuel fuel rest
      | none => c :: stripTagsFuel fuel cs
    else c :: stripTagsFuel fuel cs

def stripTags (l : List Char) : List Char := stripTagsFuel l.length l

/-- The HTML-to-text pipeline of `extract_text_from_part` (lines 122–124):
strip `<style>…</style>` blocks, then `<script>…</script>` blocks, then all
remaining tag-shaped substrings, each replaced by a space. -/
def cleanHtml (s : String) : String :=
  let noStyle := stripDelim "style".data "</style>".data s.data
  let noScript := stripDelim "script".data "</script>".data noStyle
  ⟨stripTags noScript⟩

/-- A substring of shape `<` + nonempty run of non-`<` + `>` (a match of the
source's tag regex) occurs in `l`. -/
def hasTag : List Char → Bool
  | [] => false
  | c :: cs => (c = '<' && (findTagEnd cs).isSome) || hasTag cs

/-- `hasTag` on a `String`. -/
def hasTagStr (s : String) : Bool := hasTag s.data

/-! ### Dates: `email.utils.parsedate_to_datetime` and `strftime` -/

/-- A Python `datetime` as the script uses it: calendar fields plus an
optional fixed UTC offset in seconds (`none` = naive datetime). -/
structure PyDateTime where
  year : Nat
  month : Nat
  day : Nat
  hour : Nat
  minute : Nat
  second : Nat
  tzOffset : Option Int
deriving Repr, DecidableEq

/-- Python `int(s)` for an unsigned decimal string. -/
def parseNat? (s : String) : Option Nat :=
  if !s.data.isEmpty && s.data.all Char.isDigit then
    some (s.data.foldl (fun a c => a * 10 + (c.toNat - 48)) 0)
  else none

/-- Python `int(s)` with an optional sign. -/
def parseIntToken (s : String) : Option Int :=
  match s.data with
  | '+' :: rest => (parseNat? ⟨rest⟩).map Int.ofNat
  | '-' :: rest => (parseNat? ⟨rest⟩).map (fun n => -(n : Int))
  | _ => (parseNat? s).map Int.ofNat

def pyDaynames : List String := ["mon", "tue", "wed", "thu", "fri", "sat", "sun"]

def pyMonthnames : List String :=
  ["jan", "feb", "mar", "apr", "may", "jun", "jul", "aug", "sep", "oct", "nov", "dec",
   "january", "february", "march", "april", "may", "june", "july", "august",
   "september", "october", "november", "december"]

/-- Month token to month number (1–12), as in `email._parseaddr`. -/
def monthNum (s : String) : Option Nat :=
  (pyMonthnames.findIdx? (fun m => m = pyLower s)).map (fun i => i % 12 + 1)

/-- The timezone abbreviation table of `email._parseaddr` (values in the
library's `±hhmm`-as-integer convention). -/
def pyTimezones : List (String × Int) :=
  [("UT", 0), ("UTC", 0), ("GMT", 0), ("Z", 0),
   ("AST", -400), ("ADT", -300), ("EST", -500), ("EDT", -400),
   ("CST", -600), ("CDT", -500), ("MST", -700), ("MDT", -600),
   ("PST", -800), ("PDT", -700)]

/-- Timezone token to offset in seconds; `none` when unrecognised (the
resulting datetime is then naive). -/
def parseTzToken (s : String) : Option Int :=
  let u := pyUpper s
  let hhmm : Option Int :=
    match (pyTimezones.find? (fun p => p.1 = u)).map Prod.snd with
    | some v => some v
    | none => parseIntToken s
  match hhmm with
  | none => none
  | some v =>
    let sign : Int := if v < 0 then -1 else 1
    let a := v.natAbs
    some (sign * (((a / 100) * 3600 : Nat) + ((a % 100) * 60 : Nat)))

/-- Python `s.split(sep)` for a one-character separator (keeps empty
fields), as a structural recursion so that concrete runs reduce in the
kernel. -/
def splitCharAux (sep : Char) : List Char → List Char → List String
  | acc, [] => [acc.reverse.asString]
  | acc, c :: cs =>
    if c = sep then acc.reverse.asString :: splitCharAux sep [] cs
    else splitCharAux sep (c :: acc) cs

def pySplitChar (sep : Char) (s : String) : List String := splitCharAux sep [] s.data

/-- `HH:MM[:SS]`. -/
def parseTimeToken (s : String) : Option (Nat × Nat × Nat) :=
  match (pySplitChar ':' s).map parseNat? with
  | [some h, some m] => some (h, m, 0)
  | [some h, some m, some sec] => some (h, m, sec)
  | _ => none

def dropTrailingComma (s : String) : String :=
  if s.data.getLast? = some ',' then ⟨s.data.dropLast⟩ else s

/-- Model of `email.utils.parsedate_to_datetime` (used at line 109) for the
standard RFC-2822 shape `[Day,] D Mon YYYY HH:MM[:SS] [TZ]`; other shapes —
which the script treats as a parse failure — yield `none`.  An unrecognised
alphabetic timezone yields a naive datetime (`tzOffset = none`); `GMT`,
`UT`, `UTC`, `Z`, numeric `±HHMM` offsets and the North-American
abbreviations yield an aware one, as in the Python library. -/
def parsedate_to_datetime (s : String) : Option PyDateTime :=
  let toks0 := pySplitWs s
  let toks1 := match toks0 with
    | [] => ([] : List String)
    | t0 :: rest =>
      if (t0.data.getLast? = some ',') || pyDaynames.contains (pyLower t0) then rest
      else t0 :: rest
  let toks := match toks1 with
    | [a, b, c, d] => [a, b, c, d, ""]
    | l => l
  match toks with
  | dd :: mm :: yy :: tm :: tz :: _ =>
    let swapped := match monthNum mm with
      | some m => some (dd, m)
      | none =>
        match monthNum dd with
        | some m => some (mm, m)
        | none => none
    match swapped with
    | none => none
    | some (ddTok, month) =>
      match parseNat? (dropTrailingComma ddTok), parseNat? (dropTrailingComma yy),
          parseTimeToken (dropTrailingComma tm) with
      | some day, some y0, some (h, mi, sec) =>
        let y := if y0 < 100 then (if y0 > 68 then y0 + 1900 else y0 + 2000) else y0
        some { year := y, month := month, day := day, hour := h, minute := mi,
               second := sec, tzOffset := parseTzToken tz }
      | _, _, _ => none
  | _ => none

def pad2 (n : Nat) : String := if n < 10 then "0" ++ toString n else toString n

def pad4 (n : Nat) : String :=
  if n < 10 then "000" ++ toString n
  else if n < 100 then "00" ++ toString n
  else if n < 1000 then "0" ++ toString n
  else toString n

/-- `%Z` for a `datetime.timezone` with no explicit name: empty for a naive
datetime, `UTC` for offset zero, `UTC±HH:MM[:SS]` otherwise. -/
def tzNameOf : Option Int → String
  | none => ""
  | some off =>
    if off = 0 then "UTC"
    else
      let sign := if off < 0 then "-" else "+"
      let a := off.natAbs
      let ss := a % 60
      "UTC" ++ sign ++ pad2 (a / 3600) ++ ":" ++ pad2 (a % 3600 / 60) ++
        (if ss = 0 then "" else ":" ++ pad2 ss)

/-- `dt.strftime('%Y-%m-%d %H:%M:%S %Z')` (line 111). -/
def pyStrftime (dt : PyDateTime) : String :=
  pad4 dt.year ++ "-" ++ pad2 dt.month ++ "-" ++ pad2 dt.day ++ " " ++
    pad2 dt.hour ++ ":" ++ pad2 dt.minute ++ ":" ++ pad2 dt.second ++ " " ++
    tzNameOf dt.tzOffset

/-! ### Raw messages and the Email Content Extractor (lines 98–149)

`data` fields hold the base64url-decoded UTF-8 text of a part's `body.data`;
`none` stands for an absent `data` key or a decoding failure, both of which
make `extract_text_from_part` skip the part.  The source traverses the part
tree to exactly two levels (top-level parts and their immediate sub-parts),
so deeper nesting is not modelled. -/

structure SubPart where
  mimeType : String
  data : Option String
deriving Repr, DecidableEq

structure TopPart where
  mimeType : String
  data : Option String
  subparts : List SubPart
deriving Repr, DecidableEq

/-- `message_data['payload']`: `parts = none` models an absent `parts` key
(the `elif 'body' in payload` branch); `body` holds the payload's own
decoded `body.data`, `none` covering both an absent `body`/`data` key and a
decoding failure, all of which yield no candidate. -/
structure Payload where
  mimeType : String
  body : Option String
  parts : Option (List TopPart)
deriving Repr, DecidableEq

structure RawMessage where
  id : Option String
  snippet : Option String
  headers : List (String × String)
  payload : Payload
deriving Repr, DecidableEq

/-- `extract_text_from_part` (lines 114–127): `some (text, true)` is a
`plain` candidate, `some (text, false)` an `html` one. -/
def extract_text_from_part (mimeType : String) (data : Option String) :
    Option (String × Bool) :=
  match data with
  | none => none
  | some d =>
    if mimeType = "text/plain" then some (d, true)
    else if mimeType = "text/html" then some (cleanHtml d, false)
    else none

/-- The `(mimeType, decoded data)` pairs the source visits, in visiting
order: each top-level part followed by its immediate sub-parts
(lines 129–136); a payload without a `parts` key contributes itself
(lines 137–139). -/
def partsSeq (p : Payload) : List (String × Option String) :=
  match p.parts with
  | some tops =>
    tops.foldr (fun t acc =>
      (t.mimeType, t.data) :: (t.subparts.map (fun sp => (sp.mimeType, sp.data)) ++ acc)) []
  | none => [(p.mimeType, p.body)]

/-- Append one extraction result to the `(plain_parts, html_parts)`
accumulator; the source's `if text:` keeps only non-empty texts. -/
def addCandidate (acc : List String × List String) (r : Option (String × Bool)) :
    List String × List String :=
  match r with
  | none => acc
  | some (t, isPlain) =>
    if t = "" then acc
    else if isPlain then (acc.1 ++ [t], acc.2) else (acc.1, acc.2 ++ [t])

/-- The `(plain_parts, html_parts)` lists after the traversal loop. -/
def collectParts (p : Payload) : List String × List String :=
  (partsSeq p).foldl (fun acc md => addCandidate acc (extract_text_from_part md.1 md.2)) ([], [])

/-- Line 140: prefer the newline-join of the plain candidates, falling back
to the html candidates. -/
def bodyRaw (p : Payload) : String :=
  let pc := collectParts p
  if pc.1.isEmpty then joinNL pc.2 else joinNL pc.1

/-- The recognised configuration options the modelled fragment reads;
`Option` fields are those read through `CONFIG.get(...)` with a default. -/
structure Config where
  ai_folder_prefix : String := ""
  inbox_label_name : Option String := none
  max_examples_per_folder : Option Nat := none
  max_body_length_for_llm : Option Nat := none
  similarity_prompt_v3 : Option (List String) := none

/-- The header-scanning loop of `get_email_content` (lines 103–110): later
headers of the same name overwrite earlier ones; a date that fails to parse
leaves the previously captured datetime in place. -/
structure HeaderScan where
  subject : String
  sender : String
  dateObj : Option PyDateTime

def scanHeaders (headers : List (String × String)) : HeaderScan :=
  headers.foldl (fun acc h =>
    let nl := pyLower h.1
    if nl = "subject" then { acc with subject := h.2 }
    else if nl = "from" then { acc with sender := h.2 }
    else if nl = "date" then
      match parsedate_to_datetime h.2 with
      | some dt => { acc with dateObj := some dt }
      | none => acc
    else acc)
    { subject := "", sender := "", dateObj := none }

/-- The normalized email record the script builds (lines 144–149). -/
structure EmailContent where
  id : Option String
  snippet : String
  subject : String
  sender : String
  body : String
  received_date_str : String
  received_datetime : Option PyDateTime
deriving Repr, DecidableEq

/-- `get_email_content` (lines 98–149). -/
def get_email_content (cfg : Config) (m : RawMessage) : EmailContent :=
  let hs := scanHeaders m.headers
  let formatted_date := match hs.dateObj with
    | some dt => pyStrftime dt
    | none => "Unknown Date"
  let body_text_content := collapseWs (bodyRaw m.payload)
  let max_len := cfg.max_body_length_for_llm.getD 1000
  let stripped := pyStrip body_text_content
  { id := m.id
    snippet := m.snippet.getD ""
    subject := pyStrip hs.subject
    sender := pyStrip hs.sender
    body := strTake stripped max_len ++ (if stripped.length > max_len then "..." else "")
    received_date_str := formatted_date
    received_datetime := hs.dateObj }

/-! ### Specification-side candidate collectors (§4.1 steps 2–3)

The source builds `plain_parts` and `html_parts` in a single traversal;
the specification speaks of the collections of plain and of html
candidates.  These collectors define those collections directly. -/

/-- The non-empty plain candidates of the traversed parts, in order. -/
def plainCandidates (p : Payload) : List String :=
  (partsSeq p).filterMap (fun md =>
    match extract_text_from_part md.1 md.2 with
    | some (t, true) => if t = "" then none else some t
    | _ => none)

/-- The non-empty html candidates (already style/script/tag-stripped by
`extract_text_from_part`) of the traversed parts, in order. -/
def htmlCandidates (p : Payload) : List String :=
  (partsSeq p).filterMap (fun md =>
    match extract_text_from_part md.1 md.2 with
    | some (t, false) => if t = "" then none else some t
    | _ => none)

/-! ### Category Example Store and candidate fetch (lines 88–96, 151–239) -/

/-- A category folder record (`ai_folders[category_name]`, line 93). -/
structure Folder where
  id : String
  name : String
  examples : List EmailContent
deriving Repr, DecidableEq

/-- `get_ai_auto_folders` (lines 88–96): select labels carrying the
configured prefix and strip it to obtain the category name. -/
def get_ai_auto_folders (cfg : Config) (all_labels_map : List (String × String)) :
    List (String × Folder) :=
  all_labels_map.filterMap (fun nl =>
    let pfx := Config.ai_folder_prefix cfg
    if pfx.isPrefixOf nl.1 then
      some (nl.1.drop pfx.length, { id := nl.2, name := nl.1, examples := [] })
    else none)

/-- The `if content["subject"] or content["body"]` truthiness check
(lines 164 and 220): keep a message iff it has a non-empty subject or a
non-empty body. -/
def keepContent (c : EmailContent) : Bool := c.subject != "" || c.body != ""

/-- The per-folder example-loading loop of `fetch_example_emails`
(lines 153–172).  `msgsOf` models `messages().list` (already bounded by
`maxResults`, modelled as `take`) composed with the per-message
`messages().get`: it yields the raw messages of a folder, or `none` for a
caught `HttpError`/exception, which the source logs and skips, leaving that
folder's examples as they were. -/
def load_examples (cfg : Config) (msgsOf : String → Option (List RawMessage))
    (ai_folders_map : List (String × Folder)) : List (String × Folder) :=
  ai_folders_map.map (fun p =>
    match msgsOf p.2.id with
    | none => p
    | some msgs =>
      (p.1, { p.2 with examples :=
        p.2.examples ++
          ((msgs.take (cfg.max_examples_per_folder.getD 1)).map
            (get_email_content cfg)).filter keepContent }))

/-- `fetch_example_emails` (lines 151–176): load examples, then keep only
folders with at least one kept example; `none` models the `exit(1)` at
line 174 when no folder survives. -/
def fetch_example_emails (cfg : Config) (msgsOf : String → Option (List RawMessage))
    (ai_folders_map : List (String × Folder)) : Option (List (String × Folder)) :=
  let final_folders :=
    (load_examples cfg msgsOf ai_folders_map).filter (fun p => !p.2.examples.isEmpty)
  if final_folders.isEmpty then none else some final_folders

/-- The content-fetch phase of `fetch_inbox_emails` (lines 205–233): the
listing result is reversed (newest of the batch first, line 212), each
message is fetched (`none` models a caught per-message error: skipped,
lines 223–226) and kept only when it has a subject or a body (line 220).
The label resolution and exclusion-query construction that precede the
listing are requests to the mail collaborator and are not modelled. -/
def fetch_inbox_emails (cfg : Config) (messages_meta : List (Option RawMessage)) :
    List EmailContent :=
  messages_meta.reverse.filterMap (fun om =>
    om.bind (fun m =>
      let content := get_email_content cfg m
      if keepContent content then some content else none))

/-! ### `move_email` (lines 241–253) -/

/-- The body of a `users().messages().modify` request: which message, which
labels to add, which to remove (an absent `removeLabelIds` key is the empty
list). -/
structure ModifyRequest where
  id : String
  addLabelIds : List String
  removeLabelIds : List String
deriving Repr, DecidableEq

/-- `move_email`: build the one modify request — add the target label and,
only when the label map knows the source label, remove that label's id —
and return the collaborator's success flag (`modify`, which models the
`.execute()` call, `false` covering the caught `HttpError`/exception
branches) together with the request issued. -/
def move_email (modify : ModifyRequest → Bool) (msg_id target_label_id : String)
    (all_labels_map : List (String × String)) (source_label_name : String) :
    Bool × ModifyRequest :=
  let source_id := all_labels_map.lookup source_label_name
  let remove_ids := match source_id with | some i => [i] | none => []
  let body : ModifyRequest :=
    { id := msg_id, addLabelIds := [target_label_id], removeLabelIds := remove_ids }
  (modify body, body)

/-- Modelled from the spec: the mail collaborator's
`relabel(id, addLabel, removeLabel)` mutation (§6) applied to a mailbox
state (message id ↦ label ids), used to express the frame part of C10; the
Gmail-side implementation of `modify` is not part of src/. -/
def applyModify (mailbox : List (String × List String)) (req : ModifyRequest) :
    List (String × List String) :=
  mailbox.map (fun e =>
    if e.1 = req.id then
      (e.1, e.2.filter (fun l => !req.removeLabelIds.contains l) ++
        req.addLabelIds.filter (fun l => !e.2.contains l))
    else e)

/-! ### `str.format` and the prompt build (lines 263–295) -/

/-- Read a `{name}` field up to the closing brace; `none` on a nested `{`
or a missing `}` (Python raises `ValueError` there).  Returns the name and
the remainder after the closing brace. -/
def readFieldName : List Char → Option (List Char × List Char)
  | [] => none
  | c :: cs =>
    if c = '\x7d' then some ([], cs)
    else if c = '\x7b' then none
    else
      match readFieldName cs with
      | some (nm, r) => some (c :: nm, r)
      | none => none

/-- `template.format(**env)` for the simple `{name}` placeholders the
script's templates use: `{{`/`}}` are brace escapes, a placeholder whose
name is not among the supplied keyword arguments raises `KeyError`, a stray
brace raises `ValueError` (both become `.error`); supplied arguments the
template does not reference are ignored.  Fuel as in `stripDelimFuel`:
every step consumes at least one character, so `pyFormat`'s fuel never runs
out. -/
def pyFormatFuel (env : List (String × String)) : Nat → List Char → Except String (List Char)
  | _, [] => .ok []
  | 0, l => .ok l
  | fuel + 1, '\x7b' :: '\x7b' :: rest => (pyFormatFuel env fuel rest).map (fun r => '\x7b' :: r)
  | fuel + 1, '\x7d' :: '\x7d' :: rest => (pyFormatFuel env fuel rest).map (fun r => '\x7d' :: r)
  | fuel + 1, '\x7b' :: rest =>
    match readFieldName rest with
    | none => .error "ValueError: unmatched brace in template"
    | some (nm, r) =>
      match env.lookup nm.asString with
      | none => .error ("KeyError: " ++ nm.asString)
      | some v => (pyFormatFuel env fuel r).map (fun t => v.data ++ t)
  | _ + 1, '\x7d' :: _ => .error "ValueError: single closing brace in template"
  | fuel + 1, c :: rest => (pyFormatFuel env fuel rest).map (fun r => c :: r)

def pyFormat (template : String) (env : List (String × String)) : Except String String :=
  (pyFormatFuel env template.data.length template.data).map List.asString

/-- One formatted example block (lines 266–274). -/
def format_example (cfg : Config) (i : Nat) (ex : EmailContent) : String :=
  "Example " ++ toString (i + 1) ++ ":\n" ++
  "  Sender: " ++ ex.sender ++ "\n" ++
  "  Subject: " ++ ex.subject ++ "\n" ++
  "  Received Date: " ++ ex.received_date_str ++ "\n" ++
  "  Body Snippet: " ++ ex.snippet ++ "\n" ++
  "  Body (first " ++ toString (cfg.max_body_length_for_llm.getD 1000) ++ " chars): " ++
    ex.body ++ "\n" ++
  "-----------------------------"

/-- `full_examples_text` (lines 263–276): up to `max_examples_per_folder`
example blocks joined by newline. -/
def full_examples_text (cfg : Config) (exs : List EmailContent) : String :=
  joinNL ((exs.take (cfg.max_examples_per_folder.getD 1)).enum.map
    (fun ie => format_example cfg ie.1 ie.2))

/-- The keyword arguments passed to `prompt_string.format(...)`
(lines 286–295). -/
def promptEnv (cfg : Config) (category_name : String) (exs : List EmailContent)
    (new_email : EmailContent) : List (String × String) :=
  [("category_name", category_name),
   ("example_emails_formatted_text", full_examples_text cfg exs),
   ("new_email_sender", new_email.sender),
   ("new_email_subject", new_email.subject),
   ("new_email_date", new_email.received_date_str),
   ("new_email_snippet", new_email.snippet),
   ("new_email_body", new_email.body),
   ("max_body_length_for_llm", toString (cfg.max_body_length_for_llm.getD 1000))]

/-! ### `ollama_check_similarity` (lines 256–332) and the driver loop -/

/-- `ollama_check_similarity`.  `clientOk = false` models a failing
`ollama.Client(...)` construction (caught at lines 259–261: no-match);
`llm` models `client.chat` (`.error` = a raised `ollama.ResponseError` or
any other exception inside the `try`, all caught at lines 326–332:
no-match).  A missing or empty `similarity_prompt_v3` is caught at
lines 278–281: no-match.  The `str.format` call at line 286 sits outside
both `try` blocks, so a failing substitution propagates to the caller as an
uncaught exception — the `.error` result. -/
def ollama_check_similarity (cfg : Config) (clientOk : Bool)
    (llm : String → Except String String) (category_name : String)
    (example_emails_list : List EmailContent) (new_email_content : EmailContent) :
    Except String Bool :=
  if !clientOk then .ok false
  else
    match cfg.similarity_prompt_v3 with
    | none => .ok false
    | some prompt_template_lines =>
      if prompt_template_lines.isEmpty then .ok false
      else
        match pyFormat (joinNL prompt_template_lines)
            (promptEnv cfg category_name example_emails_list new_email_content) with
        | .error e => .error e
        | .ok full_prompt_for_llm =>
          match llm full_prompt_for_llm with
          | .error _ => .ok false
          | .ok raw_answer => .ok (ollama_interpret raw_answer)

/-- The per-email category loop of `main` (lines 366–392): evaluate
categories in construction order, `break` on the first match after
requesting the move; an uncaught exception from the check aborts the run.
Returns the matched category (if any), the move success flag, and the
ordered list of categories for which a model check was performed. -/
def process_email (check : String → Folder → Except String Bool) (mv : String → Bool) :
    List (String × Folder) → Except String (Option String × Bool × List String)
  | [] => .ok (none, false, [])
  | (category, folder_meta) :: rest =>
    match check category folder_meta with
    | .error e => .error e
    | .ok true => .ok (some category, mv folder_meta.id, [category])
    | .ok false =>
      match process_email check mv rest with
      | .error e => .error e
      | .ok (res, moved, trace) => .ok (res, moved, category :: trace)

/-! ### Concrete fixtures used by scenario theorems and witnesses -/

def cfg0 : Config := {}

/-- A config whose prompt template is a fixed line without placeholders. -/
def cfgT : Config := { similarity_prompt_v3 := some ["Is the email similar?"] }

/-- A config whose prompt template references a placeholder the builder
does not supply. -/
def cfgBadT : Config := { similarity_prompt_v3 := some ["\x7bunknown_field\x7d"] }

def sampleEmail : EmailContent :=
  { id := some "e1", snippet := "snip", subject := "Subj", sender := "a@b.c",
    body := "Body", received_date_str := "Unknown Date", received_datetime := none }

def folderA : Folder := { id := "LA", name := "AI_AUTO_A", examples := [sampleEmail] }

def folderB : Folder := { id := "LB", name := "AI_AUTO_B", examples := [sampleEmail] }

/-- An always-affirmative model collaborator. -/
def llmYes : String → Except String String := fun _ => .ok "YES"

/-- A model collaborator whose every call fails (connection/response error). -/
def llmDown : String → Except String String := fun _ => .error "connection refused"

/-- A raw message with a subject and no body. -/
def w_subject_msg : RawMessage :=
  { id := some "w1", snippet := some "",
    headers := [("Subject", "Hello")],
    payload := { mimeType := "text/plain", body := none, parts := none } }

/-- A contentless raw message: no subject, no body. -/
def w_empty_msg : RawMessage :=
  { id := some "w2", snippet := some "",
    headers := [],
    payload := { mimeType := "text/plain", body := none, parts := none } }

def cfgEx : Config := { max_examples_per_folder := some 5 }

def exFolders : List (String × Folder) :=
  [("X", { id := "LX", name := "AI_AUTO_X", examples := [] })]

def exMsgsOf : String → Option (List RawMessage) :=
  fun fid => if fid = "LX" then some [w_subject_msg, w_empty_msg] else none

/-- An example folder map in which every folder loads zero examples. -/
def exMsgsOfEmpty : String → Option (List RawMessage) :=
  fun _ => some [w_empty_msg]

/-- The C9 scenario record: `Subject: Invoice #42`, `From: b@x.com`,
`Date: Tue, 1 Jan 2024 10:00:00 GMT`, single `text/plain` body
`Please pay.`. -/
def c9_raw : RawMessage :=
  { id := some "m1", snippet := some "Please pay.",
    headers := [("Subject", "Invoice #42"), ("From", "b@x.com"),
                ("Date", "Tue, 1 Jan 2024 10:00:00 GMT")],
    payload := { mimeType := "text/plain", body := some "Please pay.", parts := none } }

/-- A message with both a `text/plain` part and a `text/html` part where
the plain text itself contains an HTML tag. -/
def c7_both_raw : RawMessage :=
  { id := some "m2", snippet := some "",
    headers := [("Subject", "s")],
    payload := { mimeType := "multipart/alternative", body := none,
                 parts := some [
                   { mimeType := "text/plain", data := some "x <b>y</b>", subparts := [] },
                   { mimeType := "text/html", data := some "<p>z</p>", subparts := [] }] } }

/-- A message with both part kinds but no decodable plain data, so the html
candidate is used. -/
def c7_html_raw : RawMessage :=
  { id := some "m3", snippet := some "",
    headers := [("Subject", "s")],
    payload := { mimeType := "multipart/alternative", body := none,
                 parts := some [
                   { mimeType := "text/plain", data := none, subparts := [] },
                   { mimeType := "text/html", data := some "<p>z</p>", subparts := [] }] } }

/-! ### Theorems -/

/-- C1: the Decision Interpreter applies the three tiers in order — exact
`YES`/`NO` after trim+uppercase, then word-boundary token fallback, then
no-match for every other shape — and on the three scenario inputs yields
match, no-match, no-match respectively.  Stated as: the code's interpreter
agrees with the tiered specification interpreter everywhere, it returns
match exactly when tier 1 or tier 2 affirms, and the three scenario
responses evaluate as the claim says. -/
theorem C1_decision_interpreter_tiers (r : String) :
    (ollama_interpret r = decisionInterpreterSpec r) ∧
    (ollama_interpret r = true ↔
      (pyUpper (pyStrip r) = "YES" ∨
        (pyUpper (pyStrip r) ≠ "YES" ∧ pyUpper (pyStrip r) ≠ "NO" ∧
          containsWordToken "YES" (pyUpper (pyStrip r)) = true ∧
          containsWordToken "NO" (pyUpper (pyStrip r)) = false))) ∧
    ollama_interpret "  yes  " = true ∧
    ollama_interpret "I think the answer is NO." = false ∧
    ollama_interpret "yes... or no?" = false := by
  refine ⟨?_, ?_, by decide, by decide, by decide⟩
  · unfold ollama_interpret decisionInterpreterSpec
    rfl
  · unfold ollama_interpret
    dsimp only
    split_ifs with h1 h2 h3 h4 <;>
      simp_all [Bool.and_eq_true, Bool.not_eq_true']

/-- C2: the Classification Driver evaluates categories in their
construction order and stops at the first match: it returns the first
category whose check answers true, and the categories for which a model
check is performed are exactly the non-matching prefix followed by the
first matching category — none after it. -/
theorem C2_first_match_wins (check : String → Folder → Bool) (mv : String → Bool)
    (folders : List (String × Folder)) :
    process_email (fun c f => .ok (check c f)) mv folders =
      .ok ((folders.find? (fun p => check p.1 p.2)).map Prod.fst,
        (match folders.find? (fun p => check p.1 p.2) with
         | some p => mv p.2.id
         | none => false),
        (folders.takeWhile (fun p => !check p.1 p.2)).map Prod.fst ++
          ((folders.find? (fun p => check p.1 p.2)).map Prod.fst).toList) := by
  induction folders with
  | nil => rfl
  | cons p rest ih =>
    obtain ⟨c, f⟩ := p
    cases h : check c f with
    | true => simp [process_email, List.find?_cons, List.takeWhile_cons, h]
    | false => simp [process_email, List.find?_cons, List.takeWhile_cons, h, ih]

/-- C3: a contentless extraction (empty subject and empty body) never
enters a category's example list in the Example Store build and never
enters the candidate list of the inbox fetch: provided every example list
held only contentful entries to begin with (they start empty), every entry
of every surviving folder's example list and every candidate passes the
`keepContent` check, which holds exactly when the record is not
contentless. -/
theorem C3_contentless_dropped (cfg : Config) (msgsOf : String → Option (List RawMessage))
    (ai_folders_map : List (String × Folder)) (messages_meta : List (Option RawMessage))
    (hinit : ai_folders_map.all (fun p => p.2.examples.all keepContent) = true) :
    (∀ c : EmailContent, keepContent c = true ↔ ¬(c.subject = "" ∧ c.body = "")) ∧
    ((fetch_example_emails cfg msgsOf ai_folders_map).getD []).all
      (fun p => p.2.examples.all keepContent) = true ∧
    (fetch_inbox_emails cfg messages_meta).all keepContent = true := by
  refine ⟨?_, ?_, ?_⟩
  · intro c
    simp only [keepContent, Bool.or_eq_true, bne_iff_ne, ne_eq]
    tauto
  · have hload : (load_examples cfg msgsOf ai_folders_map).all
        (fun p => p.2.examples.all keepContent) = true := by
      rw [List.all_eq_true] at hinit ⊢
      intro p hp
      unfold load_examples at hp
      rw [List.mem_map] at hp
      obtain ⟨q, hq, rfl⟩ := hp
      have hq' := hinit q hq
      cases hmsgs : msgsOf q.2.id with
      | none => simpa [hmsgs] using hq'
      | some msgs =>
        simp only [hmsgs, List.all_eq_true] at hq' ⊢
        intro c hc
        rw [List.mem_append] at hc
        rcases hc with hc | hc
        · exact hq' c hc
        · exact (List.mem_filter.mp hc).2
    unfold fetch_example_emails
    dsimp only
    split
    · simp
    · rw [List.all_eq_true] at hload ⊢
      intro p hp
      exact hload p (List.mem_filter.mp hp).1
  · rw [List.all_eq_true]
    intro c hc
    unfold fetch_inbox_emails at hc
    rw [List.mem_filterMap] at hc
    obtain ⟨om, _, hom⟩ := hc
    cases om with
    | none => simp at hom
    | some m =>
      simp only [Option.bind_some] at hom
      have hom' : (if keepContent (get_email_content cfg m) = true
          then some (get_email_content cfg m) else none) = some c := hom
      by_cases hk : keepContent (get_email_content cfg m) = true
      · rw [if_pos hk] at hom'
        cases hom'
        exact hk
      · rw [if_neg hk] at hom'
        cases hom'

/-- Witness for C3 at a concrete run: one folder whose two raw messages
extract to one contentful and one contentless record, and an inbox listing
with a contentful, a failing, and a contentless fetch. -/
theorem C3_contentless_dropped_witness :
    (∀ c : EmailContent, keepContent c = true ↔ ¬(c.subject = "" ∧ c.body = "")) ∧
    ((fetch_example_emails cfgEx exMsgsOf exFolders).getD []).all
      (fun p => p.2.examples.all keepContent) = true ∧
    (fetch_inbox_emails cfgEx [some w_subject_msg, none, some w_empty_msg]).all
      keepContent = true :=
  C3_contentless_dropped cfgEx exMsgsOf exFolders
    [some w_subject_msg, none, some w_empty_msg] (by decide)

/-- C4: after the load phase every category with an empty kept example list
is removed before the Driver runs — the surviving map is exactly the loaded
map with empty-example folders filtered out, so the Driver's iteration set
holds only categories with at least one example — and when no category has
any example the run aborts (`none`, the source's `exit(1)`). -/
theorem C4_empty_categories_removed (cfg : Config)
    (msgsOf : String → Option (List RawMessage)) (ai_folders_map : List (String × Folder)) :
    ((fetch_example_emails cfg msgsOf ai_folders_map).getD []).all
      (fun p => !p.2.examples.isEmpty) = true ∧
    (fetch_example_emails cfg msgsOf ai_folders_map = none ↔
      (load_examples cfg msgsOf ai_folders_map).all (fun p => p.2.examples.isEmpty) = true) ∧
    (fetch_example_emails cfg msgsOf ai_folders_map =
        some ((load_examples cfg msgsOf ai_folders_map).filter
          (fun p => !p.2.examples.isEmpty)) ∨
      fetch_example_emails cfg msgsOf ai_folders_map = none) := by
  unfold fetch_example_emails
  dsimp only
  split
  · rename_i hemp
    rw [List.isEmpty_iff, List.filter_eq_nil_iff] at hemp
    refine ⟨by simp, ?_, Or.inr rfl⟩
    simp only [true_iff]
    rw [List.all_eq_true]
    intro p hp
    have := hemp p hp
    simpa using this
  · rename_i hemp
    rw [List.isEmpty_iff, List.filter_eq_nil_iff] at hemp
    push_neg at hemp
    obtain ⟨p, hp, hpk⟩ := hemp
    refine ⟨?_, ⟨fun h => (nomatch h), fun hall => ?_⟩, Or.inl rfl⟩
    · rw [List.all_eq_true]
      intro q hq
      exact (List.mem_filter.mp hq).2
    · rw [List.all_eq_true] at hall
      have h2 := hall p hp
      simp [h2] at hpk

/-- C6: the Extractor's body is the collected text with whitespace runs
collapsed to single spaces and trimmed, truncated to
`max_body_length_for_llm` characters (default 1000 via `getD`), with the
`...` marker appended exactly when the collapsed text is strictly longer
than the limit, and unchanged otherwise. -/
theorem C6_body_collapsed_truncated (cfg : Config) (m : RawMessage) :
    (get_email_content cfg m).body =
      (let t := pyStrip (collapseWs (bodyRaw m.payload))
       let n := cfg.max_body_length_for_llm.getD 1000
       if t.length > n then strTake t n ++ "..." else t) := by
  unfold get_email_content
  dsimp only
  split_ifs with h
  · rfl
  · have hle : (pyStrip (collapseWs (bodyRaw m.payload))).data.length ≤
        cfg.max_body_length_for_llm.getD 1000 := Nat.le_of_not_lt h
    show strTake _ _ ++ "" = _
    rw [String.append_empty]
    unfold strTake
    rw [List.take_of_length_le hle]

/-- C5: a model-call failure — a failing client construction, or an error
raised by the chat call once the prompt has rendered — makes the
per-category check return no-match (`.ok false`) for that category only,
and the Driver then continues with the remaining categories: a category
whose check answers `.ok false` contributes only an entry in the call trace
while the outcome is decided by the categories after it. -/
theorem C5_model_failure_is_no_match (cfg : Config) (prompt_template_lines : List String)
    (llm : String → Except String String) (p e : String) (category : String)
    (exs : List EmailContent) (email : EmailContent)
    (check : String → Folder → Except String Bool) (mv : String → Bool)
    (cat0 : String) (f0 : Folder) (rest : List (String × Folder))
    (res : Option String × Bool × List String)
    (hcfg : cfg.similarity_prompt_v3 = some prompt_template_lines)
    (hne : prompt_template_lines.isEmpty = false)
    (hfmt : pyFormat (joinNL prompt_template_lines)
      (promptEnv cfg category exs email) = .ok p)
    (hllm : llm p = .error e)
    (hc : check cat0 f0 = .ok false)
    (hrest : process_email check mv rest = .ok res) :
    ollama_check_similarity cfg false llm category exs email = .ok false ∧
    ollama_check_similarity cfg true llm category exs email = .ok false ∧
    process_email check mv ((cat0, f0) :: rest) = .ok (res.1, res.2.1, cat0 :: res.2.2) := by
  refine ⟨rfl, ?_, ?_⟩
  · simp [ollama_check_similarity, hcfg, hne, hfmt, hllm]
  · simp [process_email, hc, hrest]

/-- Witness for C5: a fixed template, a model collaborator that fails every
call, and a two-category driver run that still reaches the second
category. -/
theorem C5_model_failure_is_no_match_witness :
    ollama_check_similarity cfgT false llmDown "A" [] sampleEmail = .ok false ∧
    ollama_check_similarity cfgT true llmDown "A" [] sampleEmail = .ok false ∧
    process_email
      (fun c f => ollama_check_similarity cfgT true llmDown c f.examples sampleEmail)
      (fun _ => true) [("A", folderA), ("B", folderB)] = .ok (none, false, ["A", "B"]) :=
  C5_model_failure_is_no_match cfgT ["Is the email similar?"] llmDown
    "Is the email similar?" "connection refused" "A" [] sampleEmail
    (fun c f => ollama_check_similarity cfgT true llmDown c f.examples sampleEmail)
    (fun _ => true) "A" folderA [("B", folderB)] (none, false, ["B"])
    rfl rfl rfl rfl rfl rfl

/-- Helper: the single-pass `(plain_parts, html_parts)` accumulation splits
into the two candidate collectors. -/
theorem foldl_addCandidate (l : List (String × Option String)) (a b : List String) :
    l.foldl (fun acc md => addCandidate acc (extract_text_from_part md.1 md.2)) (a, b) =
      (a ++ l.filterMap (fun md =>
        match extract_text_from_part md.1 md.2 with
        | some (t, true) => if t = "" then none else some t
        | _ => none),
       b ++ l.filterMap (fun md =>
        match extract_text_from_part md.1 md.2 with
        | some (t, false) => if t = "" then none else some t
        | _ => none)) := by
  induction l generalizing a b with
  | nil => simp
  | cons md l ih =>
    simp only [List.foldl_cons, List.filterMap_cons]
    cases h : extract_text_from_part md.1 md.2 with
    | none => simpa [addCandidate, h] using ih a b
    | some tb =>
      obtain ⟨t, pb⟩ := tb
      by_cases ht : t = ""
      · cases pb <;> simpa [addCandidate, h, ht] using ih a b
      · cases pb with
        | false =>
          simpa [addCandidate, h, ht, List.append_assoc] using ih a (b ++ [t])
        | true =>
          simpa [addCandidate, h, ht, List.append_assoc] using ih (a ++ [t]) b

/-- Helper: the html candidates are exactly the style/script/tag-stripped
decoded `text/html` parts, kept when the stripped text is non-empty. -/
theorem htmlCandidates_characterisation (l : List (String × Option String)) :
    l.filterMap (fun md =>
      match extract_text_from_part md.1 md.2 with
      | some (t, false) => if t = "" then none else some t
      | _ => none) =
    ((l.filterMap (fun md => if md.1 = "text/html" then md.2 else none)).map
      cleanHtml).filter (fun t => t != "") := by
  induction l with
  | nil => simp
  | cons md l ih =>
    simp only [List.filterMap_cons]
    cases hd : md.2 with
    | none => simpa [extract_text_from_part, hd] using ih
    | some d =>
      by_cases hp : md.1 = "text/plain"
      · simpa [extract_text_from_part, hd, hp] using ih
      · by_cases hh : md.1 = "text/html"
        · by_cases he : cleanHtml d = ""
          · simpa [extract_text_from_part, hd, hp, hh, he, bne_iff_ne,
              List.filter_cons] using ih
          · simpa [extract_text_from_part, hd, hp, hh, he, bne_iff_ne,
              List.filter_cons] using ih
        · simpa [extract_text_from_part, hd, hp, hh] using ih

/-- C7 (amended): for a message carrying both a `text/plain` and a
`text/html` part in the traversed two levels, the candidate lists are the
plain texts and the cleaned html texts respectively; the body is built from
the plain candidates joined by newline whenever any exists, the html
candidates being used only when no plain candidate exists; each html
candidate is the decoded html with style/script blocks and tag-shaped
substrings replaced by spaces (kept when non-empty) — but HTML tags
occurring in the plain text itself are preserved, so body may contain
tags. -/
theorem C7_amended_plain_preference (m : RawMessage)
    (hplain : (partsSeq m.payload).any (fun md => md.1 = "text/plain") = true)
    (hhtml : (partsSeq m.payload).any (fun md => md.1 = "text/html") = true) :
    collectParts m.payload = (plainCandidates m.payload, htmlCandidates m.payload) ∧
    (plainCandidates m.payload ≠ [] →
      bodyRaw m.payload = joinNL (plainCandidates m.payload)) ∧
    (plainCandidates m.payload = [] →
      bodyRaw m.payload = joinNL (htmlCandidates m.payload)) ∧
    htmlCandidates m.payload =
      (((partsSeq m.payload).filterMap
        (fun md => if md.1 = "text/html" then md.2 else none)).map
          cleanHtml).filter (fun t => t != "") := by
  have hc : collectParts m.payload = (plainCandidates m.payload, htmlCandidates m.payload) := by
    unfold collectParts plainCandidates htmlCandidates
    simpa using foldl_addCandidate (partsSeq m.payload) [] []
  refine ⟨hc, ?_, ?_, htmlCandidates_characterisation (partsSeq m.payload)⟩
  · intro hne
    unfold bodyRaw
    rw [hc]
    have hf : (plainCandidates m.payload).isEmpty = false :=
      List.isEmpty_eq_false.mpr hne
    simp [hf]
  · intro hnil
    unfold bodyRaw
    rw [hc]
    simp [hnil]

/-- Witness for C7 (amended): a both-part message with a decodable plain
part uses the plain candidates; a both-part message without a plain
candidate uses the cleaned html candidates. -/
theorem C7_amended_plain_preference_witness :
    bodyRaw c7_both_raw.payload = joinNL (plainCandidates c7_both_raw.payload) ∧
    bodyRaw c7_html_raw.payload = joinNL (htmlCandidates c7_html_raw.payload) :=
  ⟨(C7_amended_plain_preference c7_both_raw (by decide) (by decide)).2.1 (by decide),
   (C7_amended_plain_preference c7_html_raw (by decide) (by decide)).2.2.1 (by decide)⟩

/-- C7 counterexample: a message carrying both a `text/plain` and a
`text/html` part whose extracted body — taken from the preferred plain
candidate — contains the HTML tag `<b>`, refuting "no HTML tag ever appears
in body". -/
theorem C7_counterexample_tag_in_body :
    (c7_both_raw.payload.parts.getD []).any (fun t => t.mimeType = "text/plain") = true ∧
    (c7_both_raw.payload.parts.getD []).any (fun t => t.mimeType = "text/html") = true ∧
    (get_email_content cfg0 c7_both_raw).body = "x <b>y</b>" ∧
    hasTagStr (get_email_content cfg0 c7_both_raw).body = true := by
  exact ⟨rfl, rfl, rfl, rfl⟩

/-- C8 counterexample: with `similarity_prompt_v3` absent from the
configuration the per-category check returns no-match instead of aborting,
and a two-category classification run completes, consulting both
categories — even with an affirmative model collaborator — so a missing
template is not fatal on first use. -/
theorem C8_counterexample_missing_template_not_fatal :
    Config.similarity_prompt_v3 cfg0 = none ∧
    ollama_check_similarity cfg0 true llmYes "A" [] sampleEmail = .ok false ∧
    process_email
      (fun c f => ollama_check_similarity cfg0 true llmYes c f.examples sampleEmail)
      (fun _ => true) [("A", folderA), ("B", folderB)] = .ok (none, false, ["A", "B"]) :=
  ⟨rfl, rfl, rfl⟩

/-- C8 (amended): a configuration whose `similarity_prompt_v3` template is
missing entirely makes every per-category check a no-match (never reaching
the model), not a fatal abort; a template whose rendering fails — e.g. it
references a placeholder the Builder does not supply — raises on first use
an uncaught error that aborts the classification run, before any model
call (`llm` is arbitrary in both conclusions). -/
theorem C8_amended_template_error_handling (cfg cfgB : Config)
    (llm : String → Except String String) (lines : List String) (e : String)
    (category : String) (exs : List EmailContent) (email : EmailContent)
    (check : String → Folder → Except String Bool) (mv : String → Bool)
    (cat0 : String) (f0 : Folder) (rest : List (String × Folder))
    (hmiss : cfg.similarity_prompt_v3 = none)
    (hsome : cfgB.similarity_prompt_v3 = some lines)
    (hne : lines.isEmpty = false)
    (hbad : pyFormat (joinNL lines) (promptEnv cfgB category exs email) = .error e)
    (hcheck : check cat0 f0 = .error e) :
    ollama_check_similarity cfg true llm category exs email = .ok false ∧
    ollama_check_similarity cfgB true llm category exs email = .error e ∧
    process_email check mv ((cat0, f0) :: rest) = .error e := by
  refine ⟨?_, ?_, ?_⟩
  · simp [ollama_check_similarity, hmiss]
  · simp [ollama_check_similarity, hsome, hne, hbad]
  · simp [process_email, hcheck]

/-- Witness for C8 (amended): the empty config (no template) yields
no-match; a config whose template references `unknown_field` aborts the
run with the `KeyError`. -/
theorem C8_amended_template_error_handling_witness :
    ollama_check_similarity cfg0 true llmYes "A" [] sampleEmail = .ok false ∧
    ollama_check_similarity cfgBadT true llmYes "A" [] sampleEmail =
      .error "KeyError: unknown_field" ∧
    process_email
      (fun c f => ollama_check_similarity cfgBadT true llmYes c f.examples sampleEmail)
      (fun _ => true) [("A", folderA), ("B", folderB)] =
      .error "KeyError: unknown_field" :=
  C8_amended_template_error_handling cfg0 cfgBadT llmYes ["\x7bunknown_field\x7d"]
    "KeyError: unknown_field" "A" [] sampleEmail
    (fun c f => ollama_check_similarity cfgBadT true llmYes c f.examples sampleEmail)
    (fun _ => true) "A" folderA [("B", folderB)]
    rfl rfl rfl rfl rfl

/-- C9 counterexample: on the scenario record the Extractor returns the
claimed subject, sender and body, but `received_date_str` is
`2024-01-01 10:00:00 UTC` — Python renders a zero-offset timezone's `%Z` as
`UTC` — and not the claimed `2024-01-01 10:00:00 GMT`. -/
theorem C9_counterexample_tz_rendering :
    (get_email_content cfg0 c9_raw).subject = "Invoice #42" ∧
    (get_email_content cfg0 c9_raw).sender = "b@x.com" ∧
    (get_email_content cfg0 c9_raw).body = "Please pay." ∧
    (get_email_content cfg0 c9_raw).received_date_str = "2024-01-01 10:00:00 UTC" ∧
    (get_email_content cfg0 c9_raw).received_date_str ≠ "2024-01-01 10:00:00 GMT" :=
  ⟨rfl, rfl, rfl, rfl, by decide⟩

/-- C9 (amended): the scenario record — headers `Subject: Invoice #42`,
`From: b@x.com`, `Date: Tue, 1 Jan 2024 10:00:00 GMT`, single `text/plain`
body `Please pay.` — extracts to exactly the claimed `EmailContent`, with
`received_date_str = "2024-01-01 10:00:00 UTC"` (the parsed timestamp
formatted as `%Y-%m-%d %H:%M:%S %Z`). -/
theorem C9_amended_scenario :
    get_email_content cfg0 c9_raw =
      { id := some "m1", snippet := "Please pay.", subject := "Invoice #42",
        sender := "b@x.com", body := "Please pay.",
        received_date_str := "2024-01-01 10:00:00 UTC",
        received_datetime := some { year := 2024, month := 1, day := 1, hour := 10,
                                    minute := 0, second := 0, tzOffset := some 0 } } :=
  rfl

/-- Helper: applying a modify request leaves every entry for a different
message id unchanged. -/
theorem applyModify_frame (mailbox : List (String × List String)) (req : ModifyRequest)
    (e : String × List String) (he : e ∈ mailbox) (hne : e.1 ≠ req.id) :
    e ∈ applyModify mailbox req := by
  unfold applyModify
  refine List.mem_map.mpr ⟨e, he, ?_⟩
  rw [if_neg hne]

/-- C10: when the configured source label is absent from the label map,
`move_email` still issues its single modify request with only the add of
the target label — no removal — and returns the collaborator's verdict, so
the move can still report success; and for any source label the one request
names exactly the given message and target label, and applying it to a
mailbox leaves every other message's entry unchanged. -/
theorem C10_move_email_missing_source_label (modify : ModifyRequest → Bool)
    (msg_id target_label_id : String) (all_labels_map : List (String × String))
    (source_label_name : String) (mailbox : List (String × List String))
    (hmiss : all_labels_map.lookup source_label_name = none) :
    (move_email modify msg_id target_label_id all_labels_map source_label_name).2 =
      { id := msg_id, addLabelIds := [target_label_id], removeLabelIds := [] } ∧
    (move_email modify msg_id target_label_id all_labels_map source_label_name).1 =
      modify { id := msg_id, addLabelIds := [target_label_id], removeLabelIds := [] } ∧
    (∀ src2 : String,
      (move_email modify msg_id target_label_id all_labels_map src2).2.id = msg_id ∧
      (move_email modify msg_id target_label_id all_labels_map src2).2.addLabelIds =
        [target_label_id]) ∧
    (∀ src2 : String, ∀ e ∈ mailbox, e.1 ≠ msg_id →
      e ∈ applyModify mailbox
        (move_email modify msg_id target_label_id all_labels_map src2).2) := by
  refine ⟨?_, ?_, fun src2 => ⟨rfl, rfl⟩, fun src2 e he hne => ?_⟩
  · simp [move_email, hmiss]
  · simp [move_email, hmiss]
  · exact applyModify_frame mailbox _ e he hne

/-- Witness for C10: a label map without the `INBOX` entry — the request
removes nothing, adds the target label, succeeds, and an unrelated mailbox
entry survives unchanged. -/
theorem C10_move_email_missing_source_label_witness :
    (move_email (fun _ => true) "m1" "LT" [("Other", "L9")] "INBOX").2 =
      { id := "m1", addLabelIds := ["LT"], removeLabelIds := [] } ∧
    (move_email (fun _ => true) "m1" "LT" [("Other", "L9")] "INBOX").1 = true ∧
    ("m2", ["X"]) ∈
      applyModify [("m1", ["INBOX"]), ("m2", ["X"])]
        (move_email (fun _ => true) "m1" "LT" [("Other", "L9")] "INBOX").2 := by
  have h := C10_move_email_missing_source_label (fun _ => true) "m1" "LT"
    [("Other", "L9")] "INBOX" [("m1", ["INBOX"]), ("m2", ["X"])] rfl
  exact ⟨h.1, h.2.1, h.2.2.2 "INBOX" ("m2", ["X"]) (by decide) (by decide)⟩

end GmailFilter
